import Mathlib

/-!
# AwesomeIME: the JNI binding of the binary dictionary

A shallow embedding of `jni/info_kanru_inputmethod_awesome_BinaryDictionary.cpp`.

The file is glue code: it opens and maps the dictionary file, constructs a
`Dictionary` engine over the mapping, forwards the two queries to it and tears
it down again.  Everything it does is an effect on the process (system calls,
the C++ heap, JNI array access), so the embedding is explicit state passing:

* the operating system and the C++ allocator are a `Platform` of result
  functions, one per call the source makes;
* the process state is the list of live mappings, the list of live
  `Dictionary` objects and the trace of calls issued so far;
* a method call through a pointer that holds no live `Dictionary` is undefined
  behaviour in C++, which the embedding records as `Outcome.undefinedBehaviour`.

Addresses are identified with the 32-bit `jint` that carries them across the
JNI boundary (`(jint) dictionary` and `(Dictionary*) dict`), so the two casts
are the identity and `NULL` is `0`.
-/

namespace AwesomeIME

/-! ## Constants of the C and JNI headers -/

/-- Addresses, identified with the `jint` that carries them. -/
abbrev Ptr := Int

/-- The null pointer. -/
def NULL : Ptr := 0

/-- The failure value of `mmap`, `(void *) -1`. -/
def MAP_FAILED : Ptr := -1

def O_RDONLY : Int := 0
def SEEK_END : Int := 2
def PROT_READ : Int := 1
def MAP_PRIVATE : Int := 2
def JNI_ABORT : Int := 2
def JNI_OK : Int := 0
def JNI_FALSE : Int := 0
def JNI_TRUE : Int := 1
def JNI_VERSION_1_4 : Int := 0x00010004

/-! ## The engine class -/

/-- Modelled from the spec: the class `Dictionary` of `dictionary.h`, which is
not among the sources.  Only what the binding touches is kept: the constructor
arguments `(dict, typedLetterMultiplier, fullWordMultiplier)`, stored as given,
and the length set by `setBufferLen`; `getBuffer` and `getBufferLen` read the
buffer and the length back. -/
structure Dictionary where
  buffer : Ptr
  typedLetterMultiplier : Int
  fullWordMultiplier : Int
  bufferLen : Int
deriving DecidableEq, Repr

/-- Modelled from the spec: the constructor `Dictionary(dict, typed, full)` of
`dictionary.h`; the length is not set by it and reads as `0` until
`setBufferLen` runs. -/
def Dictionary.construct (dict : Ptr) (typedLetterMultiplier fullWordMultiplier : Int) :
    Dictionary :=
  { buffer := dict, typedLetterMultiplier := typedLetterMultiplier,
    fullWordMultiplier := fullWordMultiplier, bufferLen := 0 }

/-- Modelled from the spec: `Dictionary::setBufferLen` of `dictionary.h`. -/
def Dictionary.setBufferLen (d : Dictionary) (len : Int) : Dictionary :=
  { d with bufferLen := len }

/-- Modelled from the spec: `Dictionary::getBuffer` of `dictionary.h`. -/
def Dictionary.getBuffer (d : Dictionary) : Ptr := d.buffer

/-- Modelled from the spec: `Dictionary::getBufferLen` of `dictionary.h`. -/
def Dictionary.getBufferLen (d : Dictionary) : Int := d.bufferLen

/-- What `Dictionary::getSuggestions` hands back: its return value and the
contents it left in the two output buffers. -/
structure SuggestionOutput where
  count : Int
  outputChars : List Nat
  frequencies : List Int
deriving DecidableEq, Repr

/-- Modelled from the spec: the two query methods of `Dictionary`, defined in
`dictionary.cpp`, which is not among the sources.  They are taken as
parameters.  Per sections 3 and 5 of the spec a query reads the handle's buffer
and multipliers and mutates nothing shared, so a query is a function of the
object and its arguments; `getSuggestions` receives
`(inputCodes, arraySize, outputChars, frequencies, maxWordLength, maxWords,
maxAlternatives, skipPos)` and `isValidWord` receives `(word, wordLength)`. -/
structure Engine where
  getSuggestions : Dictionary → List Int → Int → List Nat → List Int →
    Int → Int → Int → Int → SuggestionOutput
  isValidWord : Dictionary → List Nat → Int → Bool

/-! ## Platform and process state -/

/-- The results of the calls the binding makes into the operating system and
the C++ runtime.  `operatorNew` receives the addresses of the live objects and
never returns null or a live address. -/
structure Platform where
  sysOpen : String → Int → Int
  sysLseek : Int → Int → Int → Int
  sysMmap : Ptr → Int → Int → Int → Int → Int → Ptr
  operatorNew : List Ptr → Ptr
  operatorNew_fresh : ∀ live, operatorNew live ≠ 0 ∧ operatorNew live ∉ live

/-- The caller arrays of the two query wrappers. -/
inductive ArrayArg where
  | inputArray
  | outputArray
  | frequencyArray
  | wordArray
deriving DecidableEq, Repr

/-- One call issued by the binding. -/
inductive Event where
  | sysOpen (path : String) (flags : Int)
  | sysLseek (fd offset whence : Int)
  | sysMmap (addr : Ptr) (length prot flags fd offset : Int)
  | sysMunmap (addr : Ptr) (length : Int)
  | newDictionary (self dict : Ptr) (typedLetterMultiplier fullWordMultiplier : Int)
  | setBufferLen (self : Ptr) (len : Int)
  | deleteDictionary (self : Ptr)
  | getIntArrayElements (array : ArrayArg)
  | getCharArrayElements (array : ArrayArg)
  | releaseIntArrayElements (array : ArrayArg) (mode : Int)
  | releaseCharArrayElements (array : ArrayArg) (mode : Int)
  | callGetSuggestions (self : Ptr) (inputCodes : List Int) (arraySize : Int)
      (outputChars : List Nat) (frequencies : List Int)
      (maxWordLength maxWords maxAlternatives skipPos : Int)
  | callIsValidWord (self : Ptr) (word : List Nat) (wordLength : Int)
deriving DecidableEq, Repr

/-- The process state the binding acts on. -/
structure State where
  mappings : List (Ptr × Int)
  objects : List (Ptr × Dictionary)
  trace : List Event
deriving DecidableEq, Repr

/-- The result of a call that may run into undefined behaviour. -/
inductive Outcome (α : Type) where
  | returned (value : α)
  | undefinedBehaviour
deriving DecidableEq, Repr

/-- The `Dictionary` that lives at `p`, if any. -/
def liveObject (p : Ptr) : List (Ptr × Dictionary) → Option Dictionary
  | [] => none
  | (q, d) :: rest => if q = p then some d else liveObject p rest

/-- The live mappings after `mmap` returned `addr` for `length` bytes: a failed
call maps nothing. -/
def mapRegion (addr : Ptr) (length : Int) (mappings : List (Ptr × Int)) :
    List (Ptr × Int) :=
  if addr = MAP_FAILED then mappings else (addr, length) :: mappings

/-- The live mappings after `munmap(addr, length)`: the region mapped at
`addr` with that length is gone. -/
def unmapRegion (addr : Ptr) (length : Int) (mappings : List (Ptr × Int)) :
    List (Ptr × Int) :=
  mappings.erase (addr, length)

/-- The live objects after `delete` of the object at `p`. -/
def deleteObject (p : Ptr) (objects : List (Ptr × Dictionary)) :
    List (Ptr × Dictionary) :=
  objects.filter (fun e => e.1 ≠ p)

/-! ## The binding -/

/-- Embedding of `awesomeime_BinaryDictionary_open`: the `jint` handed to the
caller and the state the call leaves. -/
def awesomeime_BinaryDictionary_open (plat : Platform) (s : State)
    (assetManager : Int) (resourceString : String)
    (typedLetterMultiplier fullWordMultiplier : Int) : Int × State :=
  let resourcePath := "/sdcard/main.dict"
  let fd := plat.sysOpen resourcePath O_RDONLY
  let length := plat.sysLseek fd 0 SEEK_END
  let dict := plat.sysMmap NULL length PROT_READ MAP_PRIVATE fd 0
  let s1 : State :=
    { mappings := mapRegion dict length s.mappings
      objects := s.objects
      trace := s.trace ++
        [Event.sysOpen resourcePath O_RDONLY, Event.sysLseek fd 0 SEEK_END,
         Event.sysMmap NULL length PROT_READ MAP_PRIVATE fd 0] }
  if dict = NULL then
    (0, s1)
  else
    let dictionary := plat.operatorNew (s1.objects.map Prod.fst)
    let object :=
      (Dictionary.construct dict typedLetterMultiplier fullWordMultiplier).setBufferLen length
    (dictionary,
      { mappings := s1.mappings
        objects := (dictionary, object) :: s1.objects
        trace := s1.trace ++
          [Event.newDictionary dictionary dict typedLetterMultiplier fullWordMultiplier,
           Event.setBufferLen dictionary length] })

/-- What `awesomeime_BinaryDictionary_getSuggestions` leaves with the caller:
the returned count and the contents of the two arrays that are copied back. -/
structure SuggestionsReturn where
  ret : Int
  outputArray : List Nat
  frequencyArray : List Int
deriving DecidableEq, Repr

/-- Embedding of `awesomeime_BinaryDictionary_getSuggestions`.  The three
arrays are acquired, the engine is called, and the arrays are released:
`frequencyArray` and `outputArray` with mode `0`, which copies the engine's
writes back, `inputArray` with `JNI_ABORT`. -/
def awesomeime_BinaryDictionary_getSuggestions (eng : Engine) (s : State) (dict : Int)
    (inputArray : List Int) (arraySize : Int) (outputArray : List Nat)
    (frequencyArray : List Int) (maxWordLength maxWords maxAlternatives skipPos : Int) :
    Outcome SuggestionsReturn × State :=
  if dict = NULL then
    (Outcome.returned { ret := 0, outputArray := outputArray, frequencyArray := frequencyArray },
      s)
  else
    let frequencies := frequencyArray
    let inputCodes := inputArray
    let outputChars := outputArray
    let s1 : State :=
      { s with trace := s.trace ++
          [Event.getIntArrayElements ArrayArg.frequencyArray,
           Event.getIntArrayElements ArrayArg.inputArray,
           Event.getCharArrayElements ArrayArg.outputArray,
           Event.callGetSuggestions dict inputCodes arraySize outputChars frequencies
             maxWordLength maxWords maxAlternatives skipPos] }
    match liveObject dict s.objects with
    | none => (Outcome.undefinedBehaviour, s1)
    | some dictionary =>
      let out := eng.getSuggestions dictionary inputCodes arraySize outputChars frequencies
        maxWordLength maxWords maxAlternatives skipPos
      (Outcome.returned
          { ret := out.count, outputArray := out.outputChars,
            frequencyArray := out.frequencies },
        { s1 with trace := s1.trace ++
            [Event.releaseIntArrayElements ArrayArg.frequencyArray 0,
             Event.releaseIntArrayElements ArrayArg.inputArray JNI_ABORT,
             Event.releaseCharArrayElements ArrayArg.outputArray 0] })

/-- Embedding of `awesomeime_BinaryDictionary_isValidWord`. -/
def awesomeime_BinaryDictionary_isValidWord (eng : Engine) (s : State) (dict : Int)
    (wordArray : List Nat) (wordLength : Int) : Outcome Bool × State :=
  if dict = NULL then
    (Outcome.returned false, s)
  else
    let word := wordArray
    let s1 : State :=
      { s with trace := s.trace ++
          [Event.getCharArrayElements ArrayArg.wordArray,
           Event.callIsValidWord dict word wordLength] }
    match liveObject dict s.objects with
    | none => (Outcome.undefinedBehaviour, s1)
    | some dictionary =>
      let result := eng.isValidWord dictionary word wordLength
      (Outcome.returned result,
        { s1 with trace := s1.trace ++
            [Event.releaseCharArrayElements ArrayArg.wordArray JNI_ABORT] })

/-- Embedding of `awesomeime_BinaryDictionary_close`: the buffer and the length
are read through the pointer, which is undefined behaviour when no engine
lives there; the result of `munmap` is dropped, as in the source. -/
def awesomeime_BinaryDictionary_close (s : State) (dict : Int) : Outcome Unit × State :=
  match liveObject dict s.objects with
  | none => (Outcome.undefinedBehaviour, s)
  | some dictionary =>
    (Outcome.returned (),
      { mappings := unmapRegion dictionary.getBuffer dictionary.getBufferLen s.mappings
        objects := deleteObject dict s.objects
        trace := s.trace ++
          [Event.sysMunmap dictionary.getBuffer dictionary.getBufferLen,
           Event.deleteDictionary dict] })

/-! ## Registration -/

/-- The four native functions of the binding. -/
inductive NativeFn where
  | awesomeime_BinaryDictionary_open
  | awesomeime_BinaryDictionary_close
  | awesomeime_BinaryDictionary_getSuggestions
  | awesomeime_BinaryDictionary_isValidWord
deriving DecidableEq, Repr

/-- A row of a `JNINativeMethod` table. -/
structure JNINativeMethod where
  name : String
  signature : String
  fnPtr : NativeFn
deriving DecidableEq, Repr

/-- The method table `gMethods`. -/
def gMethods : List JNINativeMethod :=
  [ { name := "openNative"
      signature := "(Landroid/content/res/AssetManager;Ljava/lang/String;II)I"
      fnPtr := NativeFn.awesomeime_BinaryDictionary_open },
    { name := "closeNative", signature := "(I)V"
      fnPtr := NativeFn.awesomeime_BinaryDictionary_close },
    { name := "getSuggestionsNative", signature := "(I[II[C[IIIII)I"
      fnPtr := NativeFn.awesomeime_BinaryDictionary_getSuggestions },
    { name := "isValidWordNative", signature := "(I[CI)Z"
      fnPtr := NativeFn.awesomeime_BinaryDictionary_isValidWord } ]

/-- The JNI environment as far as registration uses it: `FindClass` returns a
class reference (`0` for none) and `RegisterNatives` a status. -/
structure JNIEnv where
  findClass : String → Int
  registerNatives : Int → List JNINativeMethod → Int → Int

/-- The Java VM as far as `JNI_OnLoad` uses it: `GetEnv` returns a status for
the requested version and sets the environment. -/
structure JavaVM where
  getEnv : Int → Int
  env : JNIEnv

/-- Embedding of `registerNativeMethods`. -/
def registerNativeMethods (env : JNIEnv) (className : String)
    (methods : List JNINativeMethod) (numMethods : Int) : Int :=
  let clazz := env.findClass className
  if clazz = NULL then
    JNI_FALSE
  else if env.registerNatives clazz methods numMethods < 0 then
    JNI_FALSE
  else
    JNI_TRUE

/-- Embedding of `registerNatives`; the table size is
`sizeof(gMethods) / sizeof(gMethods[0])`. -/
def registerNatives (env : JNIEnv) : Int :=
  let kClassPathName := "info/kanru/inputmethod/awesome/BinaryDictionary"
  registerNativeMethods env kClassPathName gMethods gMethods.length

/-- Embedding of `JNI_OnLoad`; `!registerNatives(env)` is the test for `0`.
The `assert(env != NULL)` holds on every VM of the model, since `GetEnv` sets
the environment whenever it returns `JNI_OK`. -/
def JNI_OnLoad (vm : JavaVM) : Int :=
  let result : Int := -1
  if vm.getEnv JNI_VERSION_1_4 ≠ JNI_OK then
    result
  else if registerNatives vm.env = 0 then
    result
  else
    JNI_VERSION_1_4

/-! ## Fixtures -/

/-- The highest address magnitude among the live objects. -/
def topAddress : List Int → Int
  | [] => 0
  | p :: ps => max (p.natAbs : Int) (topAddress ps)

/-- A bump allocator: the next object is placed above every live one. -/
def bumpNew (live : List Int) : Int := topAddress live + 8

/-- A device whose `/sdcard/main.dict` holds `len` bytes: the file opens as
descriptor `3`, `lseek` reports `len`, and `mmap` maps a non-empty length at
`0x40000000` and fails on an empty one. -/
def cardPlatform (len : Int) : Platform where
  sysOpen := fun path _ => if path = "/sdcard/main.dict" then 3 else -1
  sysLseek := fun fd _ _ => if fd = 3 then len else -1
  sysMmap := fun _ length _ _ fd _ =>
    if fd = 3 ∧ 0 < length then 0x40000000 else MAP_FAILED
  operatorNew := bumpNew
  operatorNew_fresh := by
    have key : ∀ l : List Int, 0 ≤ topAddress l ∧ ∀ p ∈ l, p ≤ topAddress l := by
      intro l
      induction l with
      | nil => simp [topAddress]
      | cons a t ih =>
        refine ⟨le_max_of_le_left (Int.natAbs a).cast_nonneg, ?_⟩
        intro p hp
        rcases List.mem_cons.mp hp with h | h
        · subst h
          exact le_max_of_le_left Int.le_natAbs
        · exact le_max_of_le_right (ih.2 p h)
    intro live
    constructor
    · have := (key live).1
      show topAddress live + 8 ≠ 0
      omega
    · intro hmem
      have hle : (topAddress live + 8 : Int) ≤ topAddress live := (key live).2 _ hmem
      omega

/-- A device without `/sdcard/main.dict`: `open` fails with `-1`, `lseek` on
the bad descriptor fails with `-1`, and `mmap` reports `MAP_FAILED`. -/
def noCardPlatform : Platform where
  sysOpen := fun _ _ => -1
  sysLseek := fun _ _ _ => -1
  sysMmap := fun _ _ _ _ _ _ => MAP_FAILED
  operatorNew := (cardPlatform 0).operatorNew
  operatorNew_fresh := (cardPlatform 0).operatorNew_fresh

/-- A process that has mapped nothing and holds no engine. -/
def initialState : State := { mappings := [], objects := [], trace := [] }

/-- A stand-in engine for concrete runs: it proposes the typed codes as the
one suggestion when there is room for one, and accepts the words whose first
character is below the buffer length. -/
def echoEngine : Engine where
  getSuggestions := fun d inputCodes arraySize outputChars frequencies _ maxWords _ _ =>
    if 0 < maxWords ∧ 0 < arraySize then
      { count := 1, outputChars := inputCodes.map Int.toNat,
        frequencies := [d.typedLetterMultiplier * arraySize + d.fullWordMultiplier] }
    else
      { count := 0, outputChars := outputChars, frequencies := frequencies }
  isValidWord := fun d word wordLength =>
    match word with
    | [] => false
    | c :: _ => decide ((c : Int) < d.bufferLen ∧ 0 < wordLength)

/-- The handle of the engine opened over a 4096-byte dictionary. -/
def openedHandle : Int :=
  (awesomeime_BinaryDictionary_open (cardPlatform 4096) initialState 0 "main" 2 10).1

/-- The process state after that open. -/
def openedState : State :=
  (awesomeime_BinaryDictionary_open (cardPlatform 4096) initialState 0 "main" 2 10).2

/-- The process state after that engine has been closed again. -/
def closedState : State :=
  (awesomeime_BinaryDictionary_close openedState openedHandle).2

/-! ## Names for the values `open` computes -/

/-- The descriptor `fd` that `open` obtains. -/
def openedFd (plat : Platform) : Int :=
  plat.sysOpen "/sdcard/main.dict" O_RDONLY

/-- The `length` that `open` obtains from `lseek`. -/
def fileLength (plat : Platform) : Int :=
  plat.sysLseek (openedFd plat) 0 SEEK_END

/-- The pointer `dict` that `open` obtains from `mmap`. -/
def mappedBuffer (plat : Platform) : Ptr :=
  plat.sysMmap NULL (fileLength plat) PROT_READ MAP_PRIVATE (openedFd plat) 0

/-- The calls `open` issues before it tests the mapping. -/
def openSyscalls (plat : Platform) : List Event :=
  [Event.sysOpen "/sdcard/main.dict" O_RDONLY,
   Event.sysLseek (openedFd plat) 0 SEEK_END,
   Event.sysMmap NULL (fileLength plat) PROT_READ MAP_PRIVATE (openedFd plat) 0]

/-! ## Sequences of native calls -/

/-- One call of a native method of the binding, under the name the method
table registers it with, together with the platform or engine the call runs
against. -/
inductive Call where
  | openNative (plat : Platform) (assetManager : Int) (resourceString : String)
      (typedLetterMultiplier fullWordMultiplier : Int)
  | closeNative (dict : Int)
  | getSuggestionsNative (eng : Engine) (dict : Int) (inputArray : List Int)
      (arraySize : Int) (outputArray : List Nat) (frequencyArray : List Int)
      (maxWordLength maxWords maxAlternatives skipPos : Int)
  | isValidWordNative (eng : Engine) (dict : Int) (wordArray : List Nat) (wordLength : Int)

/-- Whether the call is a close of the handle `h`. -/
def Call.closes (h : Int) : Call → Bool
  | Call.closeNative k => decide (k = h)
  | _ => false

/-- The state a call leaves when it returned; nothing is known after undefined
behaviour. -/
def stateIfReturned {α : Type} : Outcome α × State → Option State
  | (Outcome.returned _, s) => some s
  | (Outcome.undefinedBehaviour, _) => none

/-- The state after one native call, if the call is defined. -/
def perform (s : State) : Call → Option State
  | Call.openNative plat assetManager resourceString typedLetterMultiplier fullWordMultiplier =>
    some (awesomeime_BinaryDictionary_open plat s assetManager resourceString
      typedLetterMultiplier fullWordMultiplier).2
  | Call.closeNative dict => stateIfReturned (awesomeime_BinaryDictionary_close s dict)
  | Call.getSuggestionsNative eng dict inputArray arraySize outputArray frequencyArray
      maxWordLength maxWords maxAlternatives skipPos =>
    stateIfReturned (awesomeime_BinaryDictionary_getSuggestions eng s dict inputArray arraySize
      outputArray frequencyArray maxWordLength maxWords maxAlternatives skipPos)
  | Call.isValidWordNative eng dict wordArray wordLength =>
    stateIfReturned (awesomeime_BinaryDictionary_isValidWord eng s dict wordArray wordLength)

/-- The state after a sequence of native calls, if every one of them is
defined. -/
def performAll : State → List Call → Option State
  | s, [] => some s
  | s, c :: cs =>
    match perform s c with
    | none => none
    | some s1 => performAll s1 cs

/-- The same device later on: the dictionary file now holds 8192 bytes, opens
as descriptor `4` and is mapped at `0x50000000`. -/
def otherCardPlatform : Platform where
  sysOpen := fun path _ => if path = "/sdcard/main.dict" then 4 else -1
  sysLseek := fun fd _ _ => if fd = 4 then 8192 else -1
  sysMmap := fun _ length _ _ fd _ =>
    if fd = 4 ∧ 0 < length then 0x50000000 else MAP_FAILED
  operatorNew := (cardPlatform 0).operatorNew
  operatorNew_fresh := (cardPlatform 0).operatorNew_fresh

/-- Calls made while the first engine is open: a second engine is opened, the
first one is queried, and the second one is queried. -/
def busyCalls : List Call :=
  [Call.openNative otherCardPlatform 0 "main" 3 7,
   Call.getSuggestionsNative echoEngine 8 [99, 97, 116] 3 [0, 0, 0] [0] 48 1 0 (-1),
   Call.isValidWordNative echoEngine 16 [99] 1]

/-- The process state after those calls. -/
def busyState : State :=
  (performAll openedState busyCalls).getD openedState

theorem liveObject_deleteObject (p : Ptr) (objects : List (Ptr × Dictionary)) :
    liveObject p (deleteObject p objects) = none := by
  induction objects with
  | nil => rfl
  | cons e rest ih =>
    obtain ⟨q, d⟩ := e
    by_cases h : q = p
    · simpa [deleteObject, h] using ih
    · simpa [deleteObject, liveObject, h] using ih

theorem deleteObject_of_not_mem (p : Ptr) (objects : List (Ptr × Dictionary))
    (h : p ∉ objects.map Prod.fst) : deleteObject p objects = objects := by
  induction objects with
  | nil => rfl
  | cons e rest ih =>
    obtain ⟨q, d⟩ := e
    simp only [List.map_cons, List.mem_cons, not_or] at h
    have hq : q ≠ p := fun hqp => h.1 hqp.symm
    have ih2 : deleteObject p rest = rest := ih h.2
    have hkeep : (fun e : Ptr × Dictionary => decide (e.1 ≠ p)) (q, d) = true := by
      simpa using hq
    simp only [deleteObject] at ih2 ⊢
    rw [List.filter_cons, if_pos hkeep, ih2]

/-- When the mapping call yields null, `open` returns `0` and builds nothing. -/
theorem open_of_null (plat : Platform) (s : State) (assetManager : Int)
    (resourceString : String) (typedLetterMultiplier fullWordMultiplier : Int)
    (h : mappedBuffer plat = NULL) :
    awesomeime_BinaryDictionary_open plat s assetManager resourceString
        typedLetterMultiplier fullWordMultiplier =
      (0, { mappings := mapRegion (mappedBuffer plat) (fileLength plat) s.mappings
            objects := s.objects
            trace := s.trace ++ openSyscalls plat }) := by
  simp only [mappedBuffer, fileLength, openedFd] at h
  simp [awesomeime_BinaryDictionary_open, mappedBuffer, fileLength, openedFd, openSyscalls, h]

/-- When the mapping call yields anything but null, `open` builds an engine
over it and returns its address. -/
theorem open_of_ne_null (plat : Platform) (s : State) (assetManager : Int)
    (resourceString : String) (typedLetterMultiplier fullWordMultiplier : Int)
    (h : mappedBuffer plat ≠ NULL) :
    awesomeime_BinaryDictionary_open plat s assetManager resourceString
        typedLetterMultiplier fullWordMultiplier =
      (plat.operatorNew (s.objects.map Prod.fst),
       { mappings := mapRegion (mappedBuffer plat) (fileLength plat) s.mappings
         objects :=
           (plat.operatorNew (s.objects.map Prod.fst),
             { buffer := mappedBuffer plat, typedLetterMultiplier := typedLetterMultiplier,
               fullWordMultiplier := fullWordMultiplier, bufferLen := fileLength plat })
             :: s.objects
         trace := s.trace ++ openSyscalls plat ++
           [Event.newDictionary (plat.operatorNew (s.objects.map Prod.fst)) (mappedBuffer plat)
              typedLetterMultiplier fullWordMultiplier,
            Event.setBufferLen (plat.operatorNew (s.objects.map Prod.fst)) (fileLength plat)] }) := by
  simp only [mappedBuffer, fileLength, openedFd] at h
  simp [awesomeime_BinaryDictionary_open, mappedBuffer, fileLength, openedFd, openSyscalls, h,
    Dictionary.construct, Dictionary.setBufferLen]

/-- The query wrappers leave the live objects and the live mappings alone. -/
theorem getSuggestions_frame (eng : Engine) (s : State) (dict : Int)
    (inputArray : List Int) (arraySize : Int) (outputArray : List Nat)
    (frequencyArray : List Int) (maxWordLength maxWords maxAlternatives skipPos : Int) :
    (awesomeime_BinaryDictionary_getSuggestions eng s dict inputArray arraySize outputArray
        frequencyArray maxWordLength maxWords maxAlternatives skipPos).2.objects = s.objects ∧
    (awesomeime_BinaryDictionary_getSuggestions eng s dict inputArray arraySize outputArray
        frequencyArray maxWordLength maxWords maxAlternatives skipPos).2.mappings = s.mappings := by
  unfold awesomeime_BinaryDictionary_getSuggestions
  split
  · exact ⟨rfl, rfl⟩
  · split <;> exact ⟨rfl, rfl⟩

theorem isValidWord_frame (eng : Engine) (s : State) (dict : Int)
    (wordArray : List Nat) (wordLength : Int) :
    (awesomeime_BinaryDictionary_isValidWord eng s dict wordArray wordLength).2.objects
        = s.objects ∧
    (awesomeime_BinaryDictionary_isValidWord eng s dict wordArray wordLength).2.mappings
        = s.mappings := by
  unfold awesomeime_BinaryDictionary_isValidWord
  split
  · exact ⟨rfl, rfl⟩
  · split <;> exact ⟨rfl, rfl⟩

/-- A handle that holds an engine is the address of a live object. -/
theorem mem_of_liveObject (p : Ptr) (d : Dictionary) (objects : List (Ptr × Dictionary))
    (h : liveObject p objects = some d) : p ∈ objects.map Prod.fst := by
  induction objects with
  | nil => simp [liveObject] at h
  | cons e rest ih =>
    obtain ⟨q, dq⟩ := e
    by_cases hq : q = p
    · simp [hq]
    · simp only [liveObject, if_neg hq] at h
      simp [ih h]

/-- Deleting another object does not change what a handle holds. -/
theorem liveObject_deleteObject_of_ne (p k : Ptr) (objects : List (Ptr × Dictionary))
    (hk : k ≠ p) : liveObject p (deleteObject k objects) = liveObject p objects := by
  induction objects with
  | nil => rfl
  | cons e rest ih =>
    obtain ⟨q, dq⟩ := e
    simp only [deleteObject] at ih ⊢
    by_cases hq : q = k
    · have hqp : q ≠ p := fun hqp => hk (hq.symm.trans hqp)
      have hdrop : ¬ ((fun e : Ptr × Dictionary => decide (e.1 ≠ k)) (q, dq) = true) := by
        simp [hq]
      rw [List.filter_cons, if_neg hdrop, ih]
      simp [liveObject, hqp]
    · have hkeep : (fun e : Ptr × Dictionary => decide (e.1 ≠ k)) (q, dq) = true := by
        simpa using hq
      rw [List.filter_cons, if_pos hkeep]
      simp only [liveObject, ih]

/-- On a handle that holds the engine `d`, in any state, `close` returns after
one `munmap` of the buffer and length of `d` followed by the `delete`. -/
theorem close_of_live (t : State) (h : Int) (d : Dictionary)
    (hlive : liveObject h t.objects = some d) :
    awesomeime_BinaryDictionary_close t h =
      (Outcome.returned (),
       { mappings := t.mappings.erase (d.buffer, d.bufferLen)
         objects := deleteObject h t.objects
         trace := t.trace ++ [Event.sysMunmap d.buffer d.bufferLen, Event.deleteDictionary h] }) := by
  simp [awesomeime_BinaryDictionary_close, hlive, unmapRegion, Dictionary.getBuffer,
    Dictionary.getBufferLen]

theorem stateIfReturned_eq {α : Type} (r : Outcome α × State) (s1 : State)
    (h : stateIfReturned r = some s1) : r.2 = s1 := by
  obtain ⟨o, s0⟩ := r
  cases o with
  | returned v => simpa [stateIfReturned] using h
  | undefinedBehaviour => simp [stateIfReturned] at h

/-- A defined native call other than the close of `h` leaves the engine held by
`h` in place. -/
theorem perform_keeps_live (s s1 : State) (c : Call) (h : Int) (d : Dictionary)
    (hc : c.closes h = false) (hstep : perform s c = some s1)
    (hlive : liveObject h s.objects = some d) : liveObject h s1.objects = some d := by
  cases c with
  | openNative plat assetManager resourceString typedLetterMultiplier fullWordMultiplier =>
    simp only [perform, Option.some.injEq] at hstep
    rw [← hstep]
    by_cases hz : mappedBuffer plat = NULL
    · rw [open_of_null plat s assetManager resourceString typedLetterMultiplier
        fullWordMultiplier hz]
      exact hlive
    · rw [open_of_ne_null plat s assetManager resourceString typedLetterMultiplier
        fullWordMultiplier hz]
      have hfresh := (plat.operatorNew_fresh (s.objects.map Prod.fst)).2
      have hmem := mem_of_liveObject h d s.objects hlive
      have hne : plat.operatorNew (s.objects.map Prod.fst) ≠ h := by
        intro heq
        rw [heq] at hfresh
        exact hfresh hmem
      simp only [liveObject, if_neg hne]
      exact hlive
  | closeNative k =>
    have hk : k ≠ h := by simpa [Call.closes] using hc
    simp only [perform] at hstep
    have hs1 := stateIfReturned_eq _ _ hstep
    rw [← hs1]
    cases hk2 : liveObject k s.objects with
    | none =>
      simp [awesomeime_BinaryDictionary_close, hk2, stateIfReturned] at hstep
    | some dk =>
      rw [close_of_live s k dk hk2]
      simp only
      rw [liveObject_deleteObject_of_ne h k s.objects hk]
      exact hlive
  | getSuggestionsNative eng dict inputArray arraySize outputArray frequencyArray
      maxWordLength maxWords maxAlternatives skipPos =>
    simp only [perform] at hstep
    have hs1 := stateIfReturned_eq _ _ hstep
    rw [← hs1, (getSuggestions_frame eng s dict inputArray arraySize outputArray
      frequencyArray maxWordLength maxWords maxAlternatives skipPos).1]
    exact hlive
  | isValidWordNative eng dict wordArray wordLength =>
    simp only [perform] at hstep
    have hs1 := stateIfReturned_eq _ _ hstep
    rw [← hs1, (isValidWord_frame eng s dict wordArray wordLength).1]
    exact hlive

/-- The same along a sequence of defined native calls. -/
theorem performAll_keeps_live (calls : List Call) (s t : State) (h : Int) (d : Dictionary)
    (hother : calls.any (Call.closes h) = false) (hrun : performAll s calls = some t)
    (hlive : liveObject h s.objects = some d) : liveObject h t.objects = some d := by
  induction calls generalizing s with
  | nil =>
    simp only [performAll, Option.some.injEq] at hrun
    rw [← hrun]
    exact hlive
  | cons c cs ih =>
    simp only [List.any_cons, Bool.or_eq_false_iff] at hother
    simp only [performAll] at hrun
    cases hstep : perform s c with
    | none => simp [hstep] at hrun
    | some s1 =>
      simp only [hstep] at hrun
      exact ih s1 hother.2 hrun (perform_keeps_live s s1 c h d hother.1 hstep hlive)

/-! ## The query wrappers -/

/-- C1: called with the null handle, `getSuggestions` returns `0` and
`isValidWord` returns `false` for every value of the other arguments; the
caller arrays come back as they were and the process state, its trace of calls
included, is unchanged, so no array is acquired and the engine is not
invoked. -/
theorem null_handle_degrades (eng : Engine) (s : State)
    (inputArray : List Int) (arraySize : Int) (outputArray : List Nat)
    (frequencyArray : List Int) (maxWordLength maxWords maxAlternatives skipPos : Int)
    (wordArray : List Nat) (wordLength : Int) :
    awesomeime_BinaryDictionary_getSuggestions eng s 0 inputArray arraySize outputArray
        frequencyArray maxWordLength maxWords maxAlternatives skipPos =
      (Outcome.returned
        { ret := 0, outputArray := outputArray, frequencyArray := frequencyArray }, s) ∧
    awesomeime_BinaryDictionary_isValidWord eng s 0 wordArray wordLength =
      (Outcome.returned false, s) := by
  constructor
  · simp [awesomeime_BinaryDictionary_getSuggestions, NULL]
  · simp [awesomeime_BinaryDictionary_isValidWord, NULL]

/-- C6: for a non-null handle that holds an engine, `getSuggestions` returns
the count and the buffer contents of the engine's `getSuggestions` called with
the same eight arguments in the same order, and `isValidWord` returns the
engine's `isValidWord` on the same word and length; the calls recorded are
exactly those, between the acquisition and the release of the arrays. -/
theorem wrappers_delegate_to_engine (eng : Engine) (s : State) (dict : Int) (d : Dictionary)
    (inputArray : List Int) (arraySize : Int) (outputArray : List Nat)
    (frequencyArray : List Int) (maxWordLength maxWords maxAlternatives skipPos : Int)
    (wordArray : List Nat) (wordLength : Int)
    (hnonnull : dict ≠ NULL) (hlive : liveObject dict s.objects = some d) :
    awesomeime_BinaryDictionary_getSuggestions eng s dict inputArray arraySize outputArray
        frequencyArray maxWordLength maxWords maxAlternatives skipPos =
      (Outcome.returned
        { ret := (eng.getSuggestions d inputArray arraySize outputArray frequencyArray
            maxWordLength maxWords maxAlternatives skipPos).count
          outputArray := (eng.getSuggestions d inputArray arraySize outputArray frequencyArray
            maxWordLength maxWords maxAlternatives skipPos).outputChars
          frequencyArray := (eng.getSuggestions d inputArray arraySize outputArray
            frequencyArray maxWordLength maxWords maxAlternatives skipPos).frequencies },
       { mappings := s.mappings
         objects := s.objects
         trace := s.trace ++
           [Event.getIntArrayElements ArrayArg.frequencyArray,
            Event.getIntArrayElements ArrayArg.inputArray,
            Event.getCharArrayElements ArrayArg.outputArray,
            Event.callGetSuggestions dict inputArray arraySize outputArray frequencyArray
              maxWordLength maxWords maxAlternatives skipPos,
            Event.releaseIntArrayElements ArrayArg.frequencyArray 0,
            Event.releaseIntArrayElements ArrayArg.inputArray JNI_ABORT,
            Event.releaseCharArrayElements ArrayArg.outputArray 0] }) ∧
    awesomeime_BinaryDictionary_isValidWord eng s dict wordArray wordLength =
      (Outcome.returned (eng.isValidWord d wordArray wordLength),
       { mappings := s.mappings
         objects := s.objects
         trace := s.trace ++
           [Event.getCharArrayElements ArrayArg.wordArray,
            Event.callIsValidWord dict wordArray wordLength,
            Event.releaseCharArrayElements ArrayArg.wordArray JNI_ABORT] }) := by
  constructor
  · simp [awesomeime_BinaryDictionary_getSuggestions, hnonnull, hlive]
  · simp [awesomeime_BinaryDictionary_isValidWord, hnonnull, hlive]

/-- The delegation of C6 on the engine opened over a 4096-byte dictionary. -/
theorem wrappers_delegate_to_engine_witness :
    openedHandle ≠ NULL ∧
    liveObject openedHandle openedState.objects =
      some { buffer := 0x40000000, typedLetterMultiplier := 2, fullWordMultiplier := 10,
             bufferLen := 4096 } ∧
    (awesomeime_BinaryDictionary_getSuggestions echoEngine openedState openedHandle
        [99, 97, 116] 3 [0, 0, 0] [0] 48 1 0 (-1)).1 =
      Outcome.returned { ret := 1, outputArray := [99, 97, 116], frequencyArray := [16] } ∧
    (awesomeime_BinaryDictionary_isValidWord echoEngine openedState openedHandle
        [99, 97, 116] 3).1 = Outcome.returned true :=
  have h := wrappers_delegate_to_engine echoEngine openedState openedHandle
    { buffer := 0x40000000, typedLetterMultiplier := 2, fullWordMultiplier := 10,
      bufferLen := 4096 }
    [99, 97, 116] 3 [0, 0, 0] [0] 48 1 0 (-1) [99, 97, 116] 3 (by decide) (by decide)
  ⟨by decide, by decide, by rw [h.1]; decide, by rw [h.2]; decide⟩

/-- C3, at the failing input: on a device without `/sdcard/main.dict` the file
open fails, the length query fails and the mapping call reports `MAP_FAILED`,
yet `open` returns the non-zero handle `8` of a newly constructed engine whose
buffer is `MAP_FAILED` and whose length is `-1`. -/
theorem open_without_file_returns_handle :
    awesomeime_BinaryDictionary_open noCardPlatform initialState 0 "main" 2 10 =
      (8,
       { mappings := []
         objects := [(8, { buffer := MAP_FAILED, typedLetterMultiplier := 2,
                           fullWordMultiplier := 10, bufferLen := -1 })]
         trace :=
           [Event.sysOpen "/sdcard/main.dict" O_RDONLY,
            Event.sysLseek (-1) 0 SEEK_END,
            Event.sysMmap NULL (-1) PROT_READ MAP_PRIVATE (-1) 0,
            Event.newDictionary 8 MAP_FAILED 2 10,
            Event.setBufferLen 8 (-1)] }) := by
  decide

/-- C4, counterexample: on a dictionary file of length `0`, where the mapping
call fails, `open` returns the non-zero handle `8` of an engine of length `0`;
and on a file of a single byte, which is mapped, it returns the handle of an
engine of length `1`. -/
theorem open_accepts_empty_file :
    (awesomeime_BinaryDictionary_open (cardPlatform 0) initialState 0 "main" 2 10).1 = 8 ∧
    (awesomeime_BinaryDictionary_open (cardPlatform 0) initialState 0 "main" 2 10).2.objects =
      [(8, { buffer := MAP_FAILED, typedLetterMultiplier := 2, fullWordMultiplier := 10,
             bufferLen := 0 })] ∧
    (awesomeime_BinaryDictionary_open (cardPlatform 1) initialState 0 "main" 2 10).1 = 8 ∧
    (awesomeime_BinaryDictionary_open (cardPlatform 1) initialState 0 "main" 2 10).2.objects =
      [(8, { buffer := 0x40000000, typedLetterMultiplier := 2, fullWordMultiplier := 10,
             bufferLen := 1 })] := by
  decide

/-- C4, amended: `open` does not look at the length of the file.  Whenever the
mapping call yields a pointer that is neither null nor `MAP_FAILED`, whatever
length `len` the length query reported, `open` returns a non-zero handle, the
handle holds an engine over the mapped buffer with recorded length `len`, and
the mapping of `len` bytes is live. -/
theorem open_does_not_validate_length (plat : Platform) (s : State) (assetManager : Int)
    (resourceString : String) (typedLetterMultiplier fullWordMultiplier len : Int)
    (hlen : fileLength plat = len)
    (hnull : mappedBuffer plat ≠ NULL) (hmapped : mappedBuffer plat ≠ MAP_FAILED) :
    (awesomeime_BinaryDictionary_open plat s assetManager resourceString
        typedLetterMultiplier fullWordMultiplier).1 ≠ 0 ∧
    liveObject
        (awesomeime_BinaryDictionary_open plat s assetManager resourceString
          typedLetterMultiplier fullWordMultiplier).1
        (awesomeime_BinaryDictionary_open plat s assetManager resourceString
          typedLetterMultiplier fullWordMultiplier).2.objects =
      some { buffer := mappedBuffer plat, typedLetterMultiplier := typedLetterMultiplier,
             fullWordMultiplier := fullWordMultiplier, bufferLen := len } ∧
    (awesomeime_BinaryDictionary_open plat s assetManager resourceString
        typedLetterMultiplier fullWordMultiplier).2.mappings =
      (mappedBuffer plat, len) :: s.mappings := by
  rw [open_of_ne_null plat s assetManager resourceString typedLetterMultiplier
    fullWordMultiplier hnull]
  subst hlen
  refine ⟨(plat.operatorNew_fresh _).1, ?_, ?_⟩
  · simp [liveObject]
  · simp [mapRegion, hmapped]

/-- The amended C4 on a dictionary file of a single byte. -/
theorem open_does_not_validate_length_witness :
    fileLength (cardPlatform 1) = 1 ∧
    mappedBuffer (cardPlatform 1) ≠ NULL ∧
    mappedBuffer (cardPlatform 1) ≠ MAP_FAILED ∧
    (awesomeime_BinaryDictionary_open (cardPlatform 1) initialState 0 "main" 2 10).1 ≠ 0 :=
  ⟨by decide, by decide, by decide,
   (open_does_not_validate_length (cardPlatform 1) initialState 0 "main" 2 10 1
     (by decide) (by decide) (by decide)).1⟩

/-- C8: whenever the mapping call yields a non-null buffer, `open` returns a
non-zero handle that holds an engine over exactly that buffer, with the two
multipliers as passed and in that order and with the length the length query
reported; the constructor and `setBufferLen` are called with these values; and
neither query wrapper, on any state and any handle, changes the live engine
objects (buffer, length, multipliers) or the live mappings. -/
theorem open_builds_engine_over_mapping (plat : Platform) (eng : Engine) (s : State)
    (assetManager : Int) (resourceString : String)
    (typedLetterMultiplier fullWordMultiplier : Int)
    (hnull : mappedBuffer plat ≠ NULL) :
    (awesomeime_BinaryDictionary_open plat s assetManager resourceString
        typedLetterMultiplier fullWordMultiplier).1 ≠ 0 ∧
    liveObject
        (awesomeime_BinaryDictionary_open plat s assetManager resourceString
          typedLetterMultiplier fullWordMultiplier).1
        (awesomeime_BinaryDictionary_open plat s assetManager resourceString
          typedLetterMultiplier fullWordMultiplier).2.objects =
      some { buffer := mappedBuffer plat, typedLetterMultiplier := typedLetterMultiplier,
             fullWordMultiplier := fullWordMultiplier, bufferLen := fileLength plat } ∧
    (awesomeime_BinaryDictionary_open plat s assetManager resourceString
        typedLetterMultiplier fullWordMultiplier).2.trace =
      s.trace ++ openSyscalls plat ++
        [Event.newDictionary
           (awesomeime_BinaryDictionary_open plat s assetManager resourceString
             typedLetterMultiplier fullWordMultiplier).1
           (mappedBuffer plat) typedLetterMultiplier fullWordMultiplier,
         Event.setBufferLen
           (awesomeime_BinaryDictionary_open plat s assetManager resourceString
             typedLetterMultiplier fullWordMultiplier).1
           (fileLength plat)] ∧
    (∀ (t : State) (k : Int) (inputArray : List Int) (arraySize : Int)
        (outputArray : List Nat) (frequencyArray : List Int)
        (maxWordLength maxWords maxAlternatives skipPos : Int),
      (awesomeime_BinaryDictionary_getSuggestions eng t k inputArray arraySize outputArray
          frequencyArray maxWordLength maxWords maxAlternatives skipPos).2.objects = t.objects ∧
      (awesomeime_BinaryDictionary_getSuggestions eng t k inputArray arraySize outputArray
          frequencyArray maxWordLength maxWords maxAlternatives skipPos).2.mappings
        = t.mappings) ∧
    (∀ (t : State) (k : Int) (wordArray : List Nat) (wordLength : Int),
      (awesomeime_BinaryDictionary_isValidWord eng t k wordArray wordLength).2.objects
        = t.objects ∧
      (awesomeime_BinaryDictionary_isValidWord eng t k wordArray wordLength).2.mappings
        = t.mappings) := by
  rw [open_of_ne_null plat s assetManager resourceString typedLetterMultiplier
    fullWordMultiplier hnull]
  refine ⟨(plat.operatorNew_fresh _).1, ?_, rfl, ?_, ?_⟩
  · simp [liveObject]
  · intro t k inputArray arraySize outputArray frequencyArray maxWordLength maxWords
      maxAlternatives skipPos
    exact getSuggestions_frame eng t k inputArray arraySize outputArray frequencyArray
      maxWordLength maxWords maxAlternatives skipPos
  · intro t k wordArray wordLength
    exact isValidWord_frame eng t k wordArray wordLength

/-- C8 on a 4096-byte dictionary opened with multipliers `2` and `10`. -/
theorem open_builds_engine_over_mapping_witness :
    mappedBuffer (cardPlatform 4096) ≠ NULL ∧
    liveObject openedHandle openedState.objects =
      some { buffer := mappedBuffer (cardPlatform 4096), typedLetterMultiplier := 2,
             fullWordMultiplier := 10, bufferLen := fileLength (cardPlatform 4096) } :=
  ⟨by decide,
   (open_builds_engine_over_mapping (cardPlatform 4096) echoEngine initialState 0 "main" 2 10
     (by decide)).2.1⟩

/-- C7: let `open` return the handle `h` after a mapping call that succeeded,
and let any sequence of defined native calls follow that does not close `h`
(further opens, queries on any handle, closes of other handles).  Then `close`
on `h` returns normally having issued exactly one `munmap`, on the buffer that
`open` mapped and with the length that `open` recorded through `setBufferLen`,
followed by the `delete` of the engine at `h`; that one mapping is removed
from the live mappings, every other mapping and engine stays, and `h` holds no
engine afterwards.  When no call intervenes, the live mappings and objects
are again what they were before the open. -/
theorem close_undoes_open (plat : Platform) (s : State) (assetManager : Int)
    (resourceString : String) (typedLetterMultiplier fullWordMultiplier : Int)
    (h : Int) (s1 : State) (calls : List Call) (t : State)
    (hnull : mappedBuffer plat ≠ NULL) (hmapped : mappedBuffer plat ≠ MAP_FAILED)
    (hopen : awesomeime_BinaryDictionary_open plat s assetManager resourceString
      typedLetterMultiplier fullWordMultiplier = (h, s1))
    (hother : calls.any (Call.closes h) = false)
    (hrun : performAll s1 calls = some t) :
    Event.setBufferLen h (fileLength plat) ∈ s1.trace ∧
    s1.mappings = (mappedBuffer plat, fileLength plat) :: s.mappings ∧
    awesomeime_BinaryDictionary_close s1 h =
      (Outcome.returned (),
       { mappings := s.mappings
         objects := s.objects
         trace := s1.trace ++
           [Event.sysMunmap (mappedBuffer plat) (fileLength plat),
            Event.deleteDictionary h] }) ∧
    awesomeime_BinaryDictionary_close t h =
      (Outcome.returned (),
       { mappings := t.mappings.erase (mappedBuffer plat, fileLength plat)
         objects := t.objects.filter (fun e => e.1 ≠ h)
         trace := t.trace ++
           [Event.sysMunmap (mappedBuffer plat) (fileLength plat),
            Event.deleteDictionary h] }) ∧
    liveObject h (awesomeime_BinaryDictionary_close t h).2.objects = none := by
  rw [open_of_ne_null plat s assetManager resourceString typedLetterMultiplier
    fullWordMultiplier hnull] at hopen
  have hh : plat.operatorNew (s.objects.map Prod.fst) = h := congrArg Prod.fst hopen
  have hs1 := (congrArg Prod.snd hopen).symm
  simp only at hs1
  rw [hh] at hs1
  have hfresh : h ∉ s.objects.map Prod.fst := by
    rw [← hh]
    exact (plat.operatorNew_fresh (s.objects.map Prod.fst)).2
  have hlive1 : liveObject h s1.objects =
      some { buffer := mappedBuffer plat, typedLetterMultiplier := typedLetterMultiplier,
             fullWordMultiplier := fullWordMultiplier, bufferLen := fileLength plat } := by
    rw [hs1]
    simp [liveObject]
  have hlive := performAll_keeps_live calls s1 t h _ hother hrun hlive1
  have hdel : deleteObject h s1.objects = s.objects := by
    have h0 := deleteObject_of_not_mem h s.objects hfresh
    rw [hs1]
    simp only [deleteObject] at h0 ⊢
    rw [List.filter_cons, if_neg (by simp), h0]
  have hmaps : s1.mappings = (mappedBuffer plat, fileLength plat) :: s.mappings := by
    rw [hs1]
    simp [mapRegion, hmapped]
  have hclose := close_of_live t h _ hlive
  refine ⟨?_, hmaps, ?_, ?_, ?_⟩
  · rw [hs1]
    simp
  · rw [close_of_live s1 h _ hlive1, hdel, hmaps]
    simp
  · rw [hclose]
    rfl
  · rw [hclose]
    exact liveObject_deleteObject h t.objects

/-- C7 on a 4096-byte dictionary: after a second engine has been opened and
both have been queried, the close of the first handle unmaps the first mapping
and deletes the first engine, and only those. -/
theorem close_undoes_open_witness :
    mappedBuffer (cardPlatform 4096) ≠ NULL ∧
    mappedBuffer (cardPlatform 4096) ≠ MAP_FAILED ∧
    awesomeime_BinaryDictionary_open (cardPlatform 4096) initialState 0 "main" 2 10 =
      (8, openedState) ∧
    busyCalls.any (Call.closes 8) = false ∧
    performAll openedState busyCalls = some busyState ∧
    busyState.mappings = [(0x50000000, 8192), (0x40000000, 4096)] ∧
    awesomeime_BinaryDictionary_close busyState 8 =
      (Outcome.returned (),
       { mappings := busyState.mappings.erase
           (mappedBuffer (cardPlatform 4096), fileLength (cardPlatform 4096))
         objects := busyState.objects.filter (fun e => e.1 ≠ 8)
         trace := busyState.trace ++
           [Event.sysMunmap (mappedBuffer (cardPlatform 4096)) (fileLength (cardPlatform 4096)),
            Event.deleteDictionary 8] }) ∧
    (awesomeime_BinaryDictionary_close busyState 8).2.mappings = [(0x50000000, 8192)] :=
  ⟨by decide, by decide, by decide, by decide, by decide, by decide,
   (close_undoes_open (cardPlatform 4096) initialState 0 "main" 2 10 8 openedState
     busyCalls busyState (by decide) (by decide) (by decide) (by decide) (by decide)).2.2.2.1,
   by decide⟩

/-- C2, counterexample: a 4096-byte dictionary is opened and closed; the handle
`8` then holds no engine, yet `isValidWord` and `getSuggestions` called with it
pass the null test, acquire the caller arrays and call the method of the
destroyed object, which is undefined behaviour and not a return of `false` or
of `0`. -/
theorem stale_handle_reaches_destroyed_engine :
    openedHandle = 8 ∧
    (awesomeime_BinaryDictionary_close openedState openedHandle).1 = Outcome.returned () ∧
    liveObject openedHandle closedState.objects = none ∧
    awesomeime_BinaryDictionary_isValidWord echoEngine closedState openedHandle
        [99, 97, 116] 3 =
      (Outcome.undefinedBehaviour,
       { closedState with trace := closedState.trace ++
          [Event.getCharArrayElements ArrayArg.wordArray,
           Event.callIsValidWord 8 [99, 97, 116] 3] }) ∧
    awesomeime_BinaryDictionary_getSuggestions echoEngine closedState openedHandle
        [99, 97, 116] 3 [0, 0, 0] [0] 48 1 0 (-1) =
      (Outcome.undefinedBehaviour,
       { closedState with trace := closedState.trace ++
          [Event.getIntArrayElements ArrayArg.frequencyArray,
           Event.getIntArrayElements ArrayArg.inputArray,
           Event.getCharArrayElements ArrayArg.outputArray,
           Event.callGetSuggestions 8 [99, 97, 116] 3 [0, 0, 0] [0] 48 1 0 (-1)] }) := by
  decide

/-- C2, amended: let `h` be a non-zero handle returned by `open` and let
`close` have run on it.  Then `close` returned normally and `h` holds no engine
any more.  Called with the null handle, `isValidWord` returns `false` and
`getSuggestions` returns `0` without any call being issued.  Called with the
stale handle `h` itself, both wrappers pass the null test, acquire the caller
arrays and call the method of the destroyed object: undefined behaviour. -/
theorem only_null_handle_degrades_after_close (plat : Platform) (eng : Engine) (s : State)
    (assetManager : Int) (resourceString : String)
    (typedLetterMultiplier fullWordMultiplier : Int)
    (h : Int) (s1 : State) (o : Outcome Unit) (s2 : State)
    (inputArray : List Int) (arraySize : Int) (outputArray : List Nat)
    (frequencyArray : List Int) (maxWordLength maxWords maxAlternatives skipPos : Int)
    (wordArray : List Nat) (wordLength : Int)
    (hopen : awesomeime_BinaryDictionary_open plat s assetManager resourceString
      typedLetterMultiplier fullWordMultiplier = (h, s1))
    (hhandle : h ≠ 0)
    (hclose : awesomeime_BinaryDictionary_close s1 h = (o, s2)) :
    o = Outcome.returned () ∧
    liveObject h s2.objects = none ∧
    awesomeime_BinaryDictionary_isValidWord eng s2 0 wordArray wordLength =
      (Outcome.returned false, s2) ∧
    awesomeime_BinaryDictionary_getSuggestions eng s2 0 inputArray arraySize outputArray
        frequencyArray maxWordLength maxWords maxAlternatives skipPos =
      (Outcome.returned
        { ret := 0, outputArray := outputArray, frequencyArray := frequencyArray }, s2) ∧
    awesomeime_BinaryDictionary_isValidWord eng s2 h wordArray wordLength =
      (Outcome.undefinedBehaviour,
       { s2 with trace := s2.trace ++
          [Event.getCharArrayElements ArrayArg.wordArray,
           Event.callIsValidWord h wordArray wordLength] }) ∧
    awesomeime_BinaryDictionary_getSuggestions eng s2 h inputArray arraySize outputArray
        frequencyArray maxWordLength maxWords maxAlternatives skipPos =
      (Outcome.undefinedBehaviour,
       { s2 with trace := s2.trace ++
          [Event.getIntArrayElements ArrayArg.frequencyArray,
           Event.getIntArrayElements ArrayArg.inputArray,
           Event.getCharArrayElements ArrayArg.outputArray,
           Event.callGetSuggestions h inputArray arraySize outputArray frequencyArray
             maxWordLength maxWords maxAlternatives skipPos] }) := by
  have hnull : mappedBuffer plat ≠ NULL := by
    intro hz
    rw [open_of_null plat s assetManager resourceString typedLetterMultiplier
      fullWordMultiplier hz] at hopen
    exact hhandle (congrArg Prod.fst hopen).symm
  rw [open_of_ne_null plat s assetManager resourceString typedLetterMultiplier
    fullWordMultiplier hnull] at hopen
  have hh : plat.operatorNew (s.objects.map Prod.fst) = h := congrArg Prod.fst hopen
  have hs1 := (congrArg Prod.snd hopen).symm
  simp only at hs1
  have hlive : liveObject h s1.objects =
      some { buffer := mappedBuffer plat, typedLetterMultiplier := typedLetterMultiplier,
             fullWordMultiplier := fullWordMultiplier, bufferLen := fileLength plat } := by
    rw [hs1, hh]
    simp [liveObject]
  simp only [awesomeime_BinaryDictionary_close, hlive] at hclose
  have ho : Outcome.returned () = o := congrArg Prod.fst hclose
  have hs2 := (congrArg Prod.snd hclose).symm
  simp only at hs2
  have hgone : liveObject h s2.objects = none := by
    rw [hs2]
    exact liveObject_deleteObject h s1.objects
  have hne : h ≠ NULL := hhandle
  refine ⟨ho.symm, hgone, ?_, ?_, ?_, ?_⟩
  · simp [awesomeime_BinaryDictionary_isValidWord, NULL]
  · simp [awesomeime_BinaryDictionary_getSuggestions, NULL]
  · simp [awesomeime_BinaryDictionary_isValidWord, hne, hgone]
  · simp [awesomeime_BinaryDictionary_getSuggestions, hne, hgone]

/-- The amended C2 on a 4096-byte dictionary that is opened and closed. -/
theorem only_null_handle_degrades_after_close_witness :
    openedHandle ≠ 0 ∧
    awesomeime_BinaryDictionary_isValidWord echoEngine closedState 0 [99, 97, 116] 3 =
      (Outcome.returned false, closedState) ∧
    (awesomeime_BinaryDictionary_isValidWord echoEngine closedState openedHandle
        [99, 97, 116] 3).1 = Outcome.undefinedBehaviour :=
  have h := only_null_handle_degrades_after_close (cardPlatform 4096) echoEngine initialState
    0 "main" 2 10 openedHandle openedState (Outcome.returned ()) closedState
    [99, 97, 116] 3 [0, 0, 0] [0] 48 1 0 (-1) [99, 97, 116] 3
    (by decide) (by decide) (by decide)
  ⟨by decide, h.2.2.1, by rw [h.2.2.2.2.1]⟩

/-- C10: `open` never looks at `assetManager` or `resourceString`: two calls
that agree on the platform, the state and the two multipliers have the same
result and leave the same state, whatever those two arguments are; and the
calls `open` issues start with the open of the fixed path `/sdcard/main.dict`,
followed by the length query and the mapping of that descriptor. -/
theorem open_ignores_asset_arguments (plat : Platform) (s : State)
    (assetManager1 assetManager2 : Int) (resourceString1 resourceString2 : String)
    (typedLetterMultiplier fullWordMultiplier : Int) :
    awesomeime_BinaryDictionary_open plat s assetManager1 resourceString1
        typedLetterMultiplier fullWordMultiplier =
      awesomeime_BinaryDictionary_open plat s assetManager2 resourceString2
        typedLetterMultiplier fullWordMultiplier ∧
    ((awesomeime_BinaryDictionary_open plat s assetManager1 resourceString1
        typedLetterMultiplier fullWordMultiplier).2.trace.drop s.trace.length).take 3 =
      [Event.sysOpen "/sdcard/main.dict" O_RDONLY,
       Event.sysLseek (plat.sysOpen "/sdcard/main.dict" O_RDONLY) 0 SEEK_END,
       Event.sysMmap NULL
         (plat.sysLseek (plat.sysOpen "/sdcard/main.dict" O_RDONLY) 0 SEEK_END)
         PROT_READ MAP_PRIVATE (plat.sysOpen "/sdcard/main.dict" O_RDONLY) 0] := by
  refine ⟨rfl, ?_⟩
  by_cases hz : mappedBuffer plat = NULL
  · rw [open_of_null plat s assetManager1 resourceString1 typedLetterMultiplier
      fullWordMultiplier hz]
    simp [openSyscalls, fileLength, openedFd]
  · rw [open_of_ne_null plat s assetManager1 resourceString1 typedLetterMultiplier
      fullWordMultiplier hz]
    simp [openSyscalls, fileLength, openedFd]

/-! ## Registration -/

/-- C9: `JNI_OnLoad` returns `JNI_VERSION_1_4` when `GetEnv` returns `JNI_OK`,
the class `info/kanru/inputmethod/awesome/BinaryDictionary` is found and
`RegisterNatives` of the four-entry table `gMethods` returns a non-negative
value, and `-1` in every other case; so it returns `JNI_VERSION_1_4` if and
only if the three conditions hold. -/
theorem JNI_OnLoad_result (vm : JavaVM) :
    gMethods.length = 4 ∧
    JNI_OnLoad vm =
      (if vm.getEnv JNI_VERSION_1_4 = JNI_OK ∧
          vm.env.findClass "info/kanru/inputmethod/awesome/BinaryDictionary" ≠ 0 ∧
          0 ≤ vm.env.registerNatives
            (vm.env.findClass "info/kanru/inputmethod/awesome/BinaryDictionary") gMethods 4
        then JNI_VERSION_1_4 else -1) ∧
    (JNI_OnLoad vm = JNI_VERSION_1_4 ↔
      (vm.getEnv JNI_VERSION_1_4 = JNI_OK ∧
        vm.env.findClass "info/kanru/inputmethod/awesome/BinaryDictionary" ≠ 0 ∧
        0 ≤ vm.env.registerNatives
          (vm.env.findClass "info/kanru/inputmethod/awesome/BinaryDictionary") gMethods 4)) := by
  have hlen : ((gMethods.length : Nat) : Int) = 4 := by decide
  have hval : JNI_OnLoad vm =
      (if vm.getEnv JNI_VERSION_1_4 = JNI_OK ∧
          vm.env.findClass "info/kanru/inputmethod/awesome/BinaryDictionary" ≠ 0 ∧
          0 ≤ vm.env.registerNatives
            (vm.env.findClass "info/kanru/inputmethod/awesome/BinaryDictionary") gMethods 4
        then JNI_VERSION_1_4 else -1) := by
    unfold JNI_OnLoad registerNatives registerNativeMethods
    simp only [hlen, NULL, JNI_FALSE, JNI_TRUE]
    by_cases h1 : vm.getEnv JNI_VERSION_1_4 = JNI_OK
    · by_cases h2 : vm.env.findClass "info/kanru/inputmethod/awesome/BinaryDictionary" = 0
      · simp [h1, h2]
      · by_cases h3 : vm.env.registerNatives
            (vm.env.findClass "info/kanru/inputmethod/awesome/BinaryDictionary") gMethods 4 < 0
        · simp [h1, h2, h3, not_le.mpr h3]
        · simp [h1, h2, h3, not_lt.mp h3]
    · simp [h1]
  refine ⟨rfl, hval, ?_⟩
  rw [hval]
  constructor
  · intro h
    by_contra hc
    rw [if_neg hc] at h
    exact absurd h (by decide)
  · intro h
    rw [if_pos h]

end AwesomeIME
